import Mathlib

/-!
Shallow embedding of the core of `src/usb_files/audit.py` (the
"Fact-Collection & Classification Engine" of the laptop-audit tool), and
proofs checking the natural-language specification against it.

Conventions of the embedding:
* Python strings are Lean `String`s; Python `int` is `ℤ`; Python `float`
  values that the code parses out of probe text are modelled as exact `ℚ`
  (the probe values in scope are short decimal literals).
* A Python dict accessed through `dict.get(key, default)` is modelled as a
  structure of `Option`-valued fields, with the same defaults applied at
  each access site.
* Fallible code (Python exceptions) is modelled with `Option`/`Except`.
-/

/-! ## Definitions -/

/-! ### Python primitives used by the code -/

/-- Python `\s` on the ASCII range: space, tab, newline, carriage return,
vertical tab, form feed. -/
def pySpace (c : Char) : Bool :=
  c = ' ' || c = '\t' || c = '\n' || c = '\r' || c = '\x0b' || c = '\x0c'

/-- Python `str.strip()` on a character list (ASCII whitespace). -/
def pyStrip (l : List Char) : List Char :=
  ((l.dropWhile pySpace).reverse.dropWhile pySpace).reverse

/-- Python `str.strip()` on a string. -/
def pyStripS (s : String) : String :=
  String.mk (pyStrip s.data)

/-- Split a character list at every occurrence of `sep`, keeping empty pieces
(the semantics of Python `str.split(sep)`). -/
def splitOnChar (sep : Char) (cur : List Char) : List Char → List (List Char)
  | [] => [cur.reverse]
  | c :: t => if c = sep then cur.reverse :: splitOnChar sep [] t else splitOnChar sep (c :: cur) t

/-- One group between underscores in a Python integer literal: nonempty, all digits. -/
def isDigitGroup (g : List Char) : Bool :=
  !g.isEmpty && g.all Char.isDigit

/-- Numeric value of a digit list (most significant first). -/
def natOfDigits (g : List Char) : ℕ :=
  g.foldl (fun a c => a * 10 + (c.toNat - 48)) 0

/-- Digits part of Python `int(str)`: digit groups separated by single underscores. -/
def pyIntDigits (t : List Char) : Option ℤ :=
  let groups := splitOnChar '_' [] t
  if groups.all isDigitGroup then some (Int.ofNat (natOfDigits groups.flatten)) else none

/-- Python `int(s)` on a string: strip whitespace, optional sign, digit groups.
Returns `none` where Python raises `ValueError`. -/
def pyInt? (s : String) : Option ℤ :=
  match pyStrip s.data with
  | '+' :: rest => pyIntDigits rest
  | '-' :: rest => (pyIntDigits rest).map (fun n => -n)
  | t => pyIntDigits t

/-- Substring test on character lists (Python `needle in hay`). -/
def hasSub (needle : List Char) : List Char → Bool
  | [] => needle.isEmpty
  | c :: t => needle.isPrefixOf (c :: t) || hasSub needle t

/-- Python `needle in hay` on strings. -/
def pyIn (needle hay : String) : Bool :=
  hasSub needle.toList hay.toList

/-- Python `round` on an exact value: round half to even (banker's rounding),
computed on the reduced numerator and denominator. -/
def pyRound (q : ℚ) : ℤ :=
  if 2 * Int.emod q.num q.den < (q.den : ℤ) then Int.ediv q.num q.den
  else if (q.den : ℤ) < 2 * Int.emod q.num q.den then Int.ediv q.num q.den + 1
  else if Int.emod (Int.ediv q.num q.den) 2 = 0 then Int.ediv q.num q.den
  else Int.ediv q.num q.den + 1

/-! ### `run` (audit.py lines 48-56) -/

/-- Behaviour of the subordinate process spawned by `subprocess.run`: either it
completes within the timeout and yields captured standard output (whatever the
exit code), or the framework raises (execution error, timeout expiry, any
other exception). -/
inductive ProbeOutcome where
  | completed (stdout : String)
  | raised

/-- `run` (audit.py 48-56): `try: ... return result.stdout.strip() except
Exception: return ""`, as a function of the process outcome. Totality of this
definition is the "never raises to the caller" guarantee. -/
def run (cmd : String) (timeout : ℤ) (outcome : ProbeOutcome) : String :=
  match outcome with
  | ProbeOutcome.completed stdout => pyStripS stdout
  | ProbeOutcome.raised => ""

/-! ### `parse_cpu_generation` (audit.py lines 317-340) -/

/-- Leftmost match of the regex `i[3579]-(\d{2,5})` over a character list:
at each position try literal `i`, one of `3 5 7 9`, literal `-`, then a greedy
run of 2 to 5 digits; on success return the captured digit run, otherwise
restart one character further right. -/
def intelSearch : List Char → Option (List Char)
  | 'i' :: d :: '-' :: rest =>
    if d = '3' ∨ d = '5' ∨ d = '7' ∨ d = '9' then
      if 2 ≤ (rest.takeWhile Char.isDigit).length then
        some ((rest.takeWhile Char.isDigit).take 5)
      else intelSearch (d :: '-' :: rest)
    else intelSearch (d :: '-' :: rest)
  | _ :: t => intelSearch t
  | [] => none

/-- Attempt of the regex `Ryzen\s+\d\s+(\d)` anchored at the head of the list:
literal "Ryzen", one or more whitespace, a digit, one or more whitespace, then
the captured digit. (`\s+` before a `\d` never needs backtracking because the
two classes are disjoint.) -/
def tryRyzen : List Char → Option Char
  | 'R' :: 'y' :: 'z' :: 'e' :: 'n' :: s1 :: rest =>
    if pySpace s1 then
      match rest.dropWhile pySpace with
      | d1 :: s2 :: r2 =>
        if d1.isDigit ∧ pySpace s2 then
          match r2.dropWhile pySpace with
          | d2 :: _ => if d2.isDigit then some d2 else none
          | [] => none
        else none
      | _ => none
    else none
  | _ => none

/-- Leftmost match of `Ryzen\s+\d\s+(\d)`: try every start position. -/
def ryzenSearch : List Char → Option Char
  | [] => none
  | c :: t =>
    match tryRyzen (c :: t) with
    | some d => some d
    | none => ryzenSearch t

/-- Numeric value of a digit character. -/
def digitVal (c : Char) : ℕ := c.toNat - 48

/-- The fallthrough of `parse_cpu_generation` after the Intel branch:
the AMD Ryzen pattern, else 0. -/
def ryzenOr0 (cpu_model : String) : ℤ :=
  match ryzenSearch cpu_model.data with
  | some d => (digitVal d : ℤ)
  | none => 0

/-- `parse_cpu_generation` (audit.py 317-340): Intel `i[3579]-(\d{2,5})` with
the 4-digit / 5-digit cases returning, every other capture length falling
through to the Ryzen pattern, else 0. -/
def parse_cpu_generation (cpu_model : String) : ℤ :=
  match intelSearch cpu_model.data with
  | some run =>
    if run.length = 4 then (digitVal (run.headD '0') : ℤ)
    else if run.length = 5 then
      match run with
      | a :: b :: _ => ((10 * digitVal a + digitVal b : ℕ) : ℤ)
      | _ => 0
    else ryzenOr0 cpu_model
  | none => ryzenOr0 cpu_model

/-! ### `get_storage_info` (audit.py lines 225-249) -/

/-- `get_storage_info` (audit.py 225-249). The two probe outputs — the
`lsblk -bdn -o SIZE` byte count and the `smartctl -H` health text — are passed
in explicitly; division by 1,000,000,000 is exact rational arithmetic standing
for the Python float division. Returns (type, capacity_gb, smart_status). -/
def get_storage_info (disk sizeOut smartOut : String) : String × ℤ × String :=
  if disk = "" then ("N/A", 0, "N/A")
  else
    let storType := if pyIn "nvme" disk then "NVMe" else "SATA"
    let capacity : ℤ :=
      match pyInt? sizeOut with
      | some n => pyRound ((n : ℚ) / 1000000000)
      | none => 0
    let smart :=
      if pyIn "PASSED" smartOut then "PASSED"
      else if pyIn "FAILED" smartOut then "FAILED"
      else "N/A"
    (storType, capacity, smart)

/-! ### `get_battery_health` (audit.py lines 252-269) -/

/-- A character matched by the regex class `[\d.]`. -/
def isFloatChar (c : Char) : Bool := c.isDigit || c = '.'

/-- Worker for `floatTokens`: accumulate the current run (reversed) and emit
maximal runs of `[\d.]` characters in order. -/
def floatTokensAux (cur : List Char) : List Char → List (List Char)
  | [] => if cur.isEmpty then [] else [cur.reverse]
  | c :: t =>
    if isFloatChar c then floatTokensAux (c :: cur) t
    else if cur.isEmpty then floatTokensAux [] t
    else cur.reverse :: floatTokensAux [] t

/-- `re.findall(r"[\d.]+", line)`: the maximal runs of digits and dots. -/
def floatTokens (l : List Char) : List (List Char) :=
  floatTokensAux [] l

/-- Python `float(tok)` for a token drawn from `[\d.]+`: valid when it has at
least one digit and at most one dot; the decimal value is exact (the short
decimal literals in scope are modelled as exact rationals). Returns `none`
where Python raises `ValueError`. -/
def pyFloat? (tok : List Char) : Option ℚ :=
  match splitOnChar '.' [] tok with
  | [a] =>
    if !a.isEmpty && a.all Char.isDigit then some (Rat.divInt (natOfDigits a) 1) else none
  | [a, b] =>
    if (!a.isEmpty || !b.isEmpty) && a.all Char.isDigit && b.all Char.isDigit then
      some (Rat.divInt (natOfDigits a * 10 ^ b.length + natOfDigits b) (10 ^ b.length))
    else none
  | _ => none

/-- One iteration of the `get_battery_health` line loop: strip the line, update
`full` from a line containing "energy-full:" but not "design", and `design`
from a line containing "energy-full-design:", taking the first `[\d.]+` token
of the line; an invalid float raises (`Except.error`). -/
def battStep (st : Option ℚ × Option ℚ) (line : List Char) :
    Except Unit (Option ℚ × Option ℚ) :=
  let ls := pyStrip line
  let st1 : Except Unit (Option ℚ × Option ℚ) :=
    if hasSub "energy-full:".data ls && !hasSub "design".data ls then
      match floatTokens ls with
      | [] => Except.ok st
      | tok :: _ =>
        match pyFloat? tok with
        | some v => Except.ok (some v, st.2)
        | none => Except.error ()
    else Except.ok st
  match st1 with
  | Except.error e => Except.error e
  | Except.ok s1 =>
    if hasSub "energy-full-design:".data ls then
      match floatTokens ls with
      | [] => Except.ok s1
      | tok :: _ =>
        match pyFloat? tok with
        | some v => Except.ok (s1.1, some v)
        | none => Except.error ()
    else Except.ok s1

/-- The full line loop of `get_battery_health` over the split lines. -/
def battScan (st : Option ℚ × Option ℚ) : List (List Char) → Except Unit (Option ℚ × Option ℚ)
  | [] => Except.ok st
  | l :: ls =>
    match battStep st l with
    | Except.error e => Except.error e
    | Except.ok st1 => battScan st1 ls

/-- `get_battery_health` (audit.py 252-269) as a function of the probe text:
scan the lines for `full` and `design`, then
`if full and design and design > 0: return str(round(full / design * 100))`
else `"N/A"`. Python truthiness makes `full = 0.0` and `design = 0.0` falsy. -/
def get_battery_health (out : String) : Except Unit String :=
  match battScan (none, none) (splitOnChar '\n' [] out.data) with
  | Except.error e => Except.error e
  | Except.ok (fullOpt, designOpt) =>
    Except.ok
      (match fullOpt, designOpt with
       | some f, some dz =>
         if f ≠ 0 ∧ dz ≠ 0 ∧ 0 < dz then toString (pyRound (f / dz * 100)) else "N/A"
       | _, _ => "N/A")

/-! ### `compute_recommendation` (audit.py lines 472-494) -/

/-- The subset of the audit dict read by `compute_recommendation`;
`none` models a missing key. -/
structure RecInput where
  smart_status : Option String
  screen_grade : Option String
  chassis_grade : Option String
  gpu : Option String
  cpuGen : Option ℤ
  battery_pct : Option String

/-- `data.get("smart_status", "N/A")`. -/
def recSmart (d : RecInput) : String := d.smart_status.getD "N/A"

/-- `data.get("screen_grade", "")`. -/
def recScreen (d : RecInput) : String := d.screen_grade.getD ""

/-- `data.get("chassis_grade", "")`. -/
def recChassis (d : RecInput) : String := d.chassis_grade.getD ""

/-- `data.get("gpu", "None")`. -/
def recGpu (d : RecInput) : String := d.gpu.getD "None"

/-- `data.get("_cpu_gen", 0)`. -/
def recCpuGen (d : RecInput) : ℤ := d.cpuGen.getD 0

/-- `int(data.get("battery_pct", "0"))` with `except ValueError: batt = 0`. -/
def recBatt (d : RecInput) : ℤ :=
  match pyInt? (d.battery_pct.getD "0") with
  | some n => n
  | none => 0

/-- `compute_recommendation` (audit.py 472-494): the ordered decision tree. -/
def compute_recommendation (d : RecInput) : String :=
  if recSmart d = "FAILED" ∨ recScreen d = "C" ∨ recChassis d = "C" then "PARTS/REPAIR"
  else if recGpu d ≠ "None" then "HIGH VALUE (Gaming/Creator)"
  else if recCpuGen d ≥ 8 ∧ recBatt d > 65 then "Standard Resale"
  else if recBatt d < 60 then "Bad Battery (Discount)"
  else "Standard Resale"

/-! ### `export_to_csv` (audit.py lines 501-531, CSV_HEADERS lines 26-32) -/

/-- `CSV_HEADERS` (audit.py 26-32): the fixed 18-column header. -/
def CSV_HEADERS : List String :=
  ["timestamp", "service_tag", "model", "cpu", "cores",
   "ram_gb", "ram_type", "storage_type", "storage_gb",
   "smart_status", "battery_pct", "gpu", "resolution",
   "resolution_class", "screen_grade", "chassis_grade",
   "charger", "recommendation"]

/-- The audit dict fields read by `export_to_csv`; `none` models a missing key.
The field `res_class_field` models the "resolution_class" dict key. -/
structure ExportData where
  service_tag : Option String
  model : Option String
  cpu : Option String
  cores : Option ℤ
  ram_gb : Option ℤ
  ram_type : Option String
  storage_type : Option String
  storage_gb : Option ℤ
  smart_status : Option String
  battery_pct : Option String
  gpu : Option String
  resolution : Option String
  res_class_field : Option String
  screen_grade : Option String
  chassis_grade : Option String
  charger : Option String
  recommendation : Option String

/-- The data row built by `export_to_csv` (audit.py 506-525), serialized by
`csv.DictWriter(fieldnames=CSV_HEADERS)` in header order; the timestamp
(`datetime.now()`) is passed in. A row is modelled as its list of cells. -/
def rowOf (timestamp : String) (d : ExportData) : List String :=
  [timestamp,
   d.service_tag.getD "N/A",
   d.model.getD "N/A",
   d.cpu.getD "N/A",
   toString (d.cores.getD 0),
   toString (d.ram_gb.getD 0),
   d.ram_type.getD "N/A",
   d.storage_type.getD "N/A",
   toString (d.storage_gb.getD 0),
   d.smart_status.getD "N/A",
   d.battery_pct.getD "N/A",
   d.gpu.getD "None",
   d.resolution.getD "N/A",
   d.res_class_field.getD "N/A",
   d.screen_grade.getD "",
   d.chassis_grade.getD "",
   d.charger.getD "",
   d.recommendation.getD ""]

/-- `export_to_csv` (audit.py 501-531) as a transformation of the ledger file
contents: `none` models "the file did not exist at open time"; the writer
appends one row and writes the header first exactly when the file was new. -/
def export_to_csv (timestamp : String) (d : ExportData)
    (file : Option (List (List String))) : List (List String) :=
  match file with
  | none => [CSV_HEADERS, rowOf timestamp d]
  | some lines => lines ++ [rowOf timestamp d]

/-- Sequential `export_to_csv` calls, one per audited unit, threading the file
contents (after the first call the file exists). -/
def exportAll : List (String × ExportData) → Option (List (List String)) → List (List String)
  | [], none => []
  | [], some f => f
  | r :: rs, file => exportAll rs (some (export_to_csv r.1 r.2 file))

/-! ## Theorems -/

/-! ### Helper lemmas -/

/-- The Ryzen fallthrough of `parse_cpu_generation` is a digit value or 0,
hence never negative. -/
theorem ryzenOr0_nonneg (s : String) : 0 ≤ ryzenOr0 s := by
  unfold ryzenOr0
  cases h : ryzenSearch s.data <;> simp

/-- Dropping a prefix by predicate splits off a prefix all of whose characters
satisfy the predicate. -/
theorem dropWhile_decomp (p : Char → Bool) (l : List Char) :
    ∃ pre : List Char, (∀ c ∈ pre, p c = true) ∧ l = pre ++ l.dropWhile p := by
  induction l with
  | nil => exact ⟨[], by simp, rfl⟩
  | cons a t ih =>
    by_cases ha : p a
    · obtain ⟨pre, hall, hdec⟩ := ih
      refine ⟨a :: pre, ?_, ?_⟩
      · intro x hx
        rcases List.mem_cons.mp hx with hxa | hxm
        · rw [hxa]; exact ha
        · exact hall x hxm
      · rw [List.dropWhile_cons_of_pos ha]
        simpa using hdec
    · exact ⟨[], by simp, by rw [List.dropWhile_cons_of_neg ha]; rfl⟩

/-- The head of `dropWhile p l` never satisfies `p`. -/
theorem head_dropWhile_false (p : Char → Bool) (l : List Char) :
    ∀ c ∈ (l.dropWhile p).head?, p c = false := by
  induction l with
  | nil => simp
  | cons a t ih =>
    by_cases ha : p a
    · rw [List.dropWhile_cons_of_pos ha]
      exact ih
    · rw [List.dropWhile_cons_of_neg ha]
      intro c hc
      simp at hc
      subst hc
      simpa using ha

/-- Writing to an existing file only ever appends the data rows in order. -/
theorem exportAll_some (rs : List (String × ExportData)) (f : List (List String)) :
    exportAll rs (some f) = f ++ rs.map (fun p => rowOf p.1 p.2) := by
  induction rs generalizing f with
  | nil => simp [exportAll]
  | cons r rs ih =>
    rw [exportAll, export_to_csv, ih, List.append_assoc]
    rfl

/-! ### Claim C1 -/

/-- C1: if SMART status is "FAILED", or screen grade is "C", or chassis grade is
"C", then `compute_recommendation` returns "PARTS/REPAIR" regardless of every
other field. -/
theorem c1_rule1_forces_parts_repair (d : RecInput)
    (h : recSmart d = "FAILED" ∨ recScreen d = "C" ∨ recChassis d = "C") :
    compute_recommendation d = "PARTS/REPAIR" := by
  unfold compute_recommendation
  rw [if_pos h]

/-- C1 witness: a discrete GPU together with storage_health = FAILED still
yields "PARTS/REPAIR", not the HIGH VALUE label. -/
theorem c1_rule1_forces_parts_repair_witness :
    compute_recommendation
      ⟨some "FAILED", some "A", some "A", some "NVIDIA GeForce RTX 3050", some 11, some "80"⟩
      = "PARTS/REPAIR" :=
  c1_rule1_forces_parts_repair _ (Or.inl rfl)

/-! ### Claim C2 -/

/-- C2: with no rule-1 condition and gpu = "None": a battery string "N/A" parses
as 0 and yields "Bad Battery (Discount)"; a battery percentage in [60,65] with
cpu generation below 8 falls through rules 3 and 4 to the default
"Standard Resale". -/
theorem c2_battery_boundary :
    (∀ d : RecInput,
      ¬(recSmart d = "FAILED" ∨ recScreen d = "C" ∨ recChassis d = "C") →
      recGpu d = "None" → d.battery_pct = some "N/A" →
      compute_recommendation d = "Bad Battery (Discount)") ∧
    (∀ (d : RecInput) (b : ℤ),
      ¬(recSmart d = "FAILED" ∨ recScreen d = "C" ∨ recChassis d = "C") →
      recGpu d = "None" →
      pyInt? (d.battery_pct.getD "0") = some b → 60 ≤ b → b ≤ 65 → recCpuGen d < 8 →
      compute_recommendation d = "Standard Resale") := by
  constructor
  · intro d h1 hg hb
    have hna : pyInt? "N/A" = none := rfl
    have hb0 : recBatt d = 0 := by
      unfold recBatt
      rw [hb]
      simp [hna]
    unfold compute_recommendation
    rw [if_neg h1, if_neg (by simp [hg]), if_neg (by simp [hb0]), if_pos (by simp [hb0])]
  · intro d b h1 hg hb h60 h65 hcg
    have hbv : recBatt d = b := by
      unfold recBatt
      rw [hb]
    unfold compute_recommendation
    rw [if_neg h1, if_neg (by simp [hg]),
        if_neg (by rw [hbv]; exact fun hc => absurd hc.1 (not_le.mpr hcg)),
        if_neg (by rw [hbv]; exact not_lt.mpr h60)]

/-- C2 witness: concrete instances of both conjuncts. -/
theorem c2_battery_boundary_witness :
    compute_recommendation ⟨some "PASSED", some "A", some "B", some "None", some 9, some "N/A"⟩
      = "Bad Battery (Discount)" ∧
    compute_recommendation ⟨some "N/A", some "B", some "A", some "None", some 7, some "63"⟩
      = "Standard Resale" :=
  ⟨c2_battery_boundary.1 _ (by decide) rfl rfl,
   c2_battery_boundary.2 _ 63 (by decide) rfl rfl (by decide) (by decide) (by decide)⟩

/-! ### Claim C3 -/

/-- C3 (code bug): five of the six documented values of `parse_cpu_generation`
hold, but "i7-1185G7" evaluates to 1, not the 11 stated by the function's own
docstring and by the spec: the regex captures the 4-digit run "1185" and the
4-digit case returns only its first digit. -/
theorem c3_parse_cpu_generation_eval :
    parse_cpu_generation "i7-8565U" = 8 ∧
    parse_cpu_generation "i5-13500H" = 13 ∧
    parse_cpu_generation "i7-14700H" = 14 ∧
    parse_cpu_generation "Ryzen 7 5800H" = 5 ∧
    parse_cpu_generation "Celeron N4000" = 0 ∧
    parse_cpu_generation "i7-1185G7" = 1 :=
  ⟨rfl, rfl, rfl, rfl, rfl, rfl⟩

/-! ### Claim C4 -/

/-- C4: for any non-empty disk and any SMART self-test output, the health
classification is "PASSED" when the text contains "PASSED", otherwise "FAILED"
when it contains "FAILED", otherwise "N/A"; when both substrings appear,
"PASSED" takes priority. -/
theorem c4_smart_classification (disk sizeOut smartOut : String) (hd : disk ≠ "") :
    (pyIn "PASSED" smartOut = true →
      (get_storage_info disk sizeOut smartOut).2.2 = "PASSED") ∧
    (pyIn "PASSED" smartOut = false → pyIn "FAILED" smartOut = true →
      (get_storage_info disk sizeOut smartOut).2.2 = "FAILED") ∧
    (pyIn "PASSED" smartOut = false → pyIn "FAILED" smartOut = false →
      (get_storage_info disk sizeOut smartOut).2.2 = "N/A") ∧
    (pyIn "PASSED" smartOut = true → pyIn "FAILED" smartOut = true →
      (get_storage_info disk sizeOut smartOut).2.2 = "PASSED") := by
  unfold get_storage_info
  rw [if_neg hd]
  refine ⟨fun hp => ?_, fun hp hf => ?_, fun hp hf => ?_, fun hp hf => ?_⟩ <;>
    simp [hp]
  all_goals simp [hf]

/-- C4 witness: an output containing both substrings classifies as "PASSED". -/
theorem c4_smart_classification_witness :
    (get_storage_info "/dev/sda" "512110190592"
        "SMART overall-health self-test result: FAILED then PASSED").2.2 = "PASSED" :=
  (c4_smart_classification "/dev/sda" "512110190592"
      "SMART overall-health self-test result: FAILED then PASSED"
      (by decide)).1 rfl

/-! ### Claim C5 -/

/-- C5 counterexample: in the probe text below both values are present — the
scan yields full = 0 and design = 50 with design > 0 — yet the code returns
"N/A", not str(round(0 / 50 × 100)) = "0": Python's truthiness test
`if full and design and design > 0` treats the present value 0.0 as absent. -/
theorem c5_battery_present_zero_counterexample :
    battScan (none, none)
        (splitOnChar '\n' [] ("energy-full: 0 Wh\nenergy-full-design: 50 Wh").data)
      = Except.ok (some 0, some 50) ∧
    (0 : ℚ) < 50 ∧
    get_battery_health "energy-full: 0 Wh\nenergy-full-design: 50 Wh" = Except.ok "N/A" ∧
    toString (pyRound ((0 : ℚ) / 50 * 100)) = "0" ∧
    "N/A" ≠ "0" :=
  ⟨rfl, by norm_num, rfl,
   by rw [(by norm_num : ((0 : ℚ) / 50 * 100) = 0)]; decide,
   by decide⟩

/-- C5 (amended): if the scan finds a full value that is nonzero and a design
value with design > 0, `get_battery_health` returns str(round(full / design ×
100)); in every other non-raising case (either value absent, full = 0, or
design ≤ 0) it returns the sentinel "N/A". -/
theorem c5_battery_health_amended :
    (∀ (out : String) (f dz : ℚ),
      battScan (none, none) (splitOnChar '\n' [] out.data) = Except.ok (some f, some dz) →
      f ≠ 0 → 0 < dz →
      get_battery_health out = Except.ok (toString (pyRound (f / dz * 100)))) ∧
    (∀ (out : String) (st : Option ℚ × Option ℚ),
      battScan (none, none) (splitOnChar '\n' [] out.data) = Except.ok st →
      (∀ f dz : ℚ, st = (some f, some dz) → f = 0 ∨ dz ≤ 0) →
      get_battery_health out = Except.ok "N/A") := by
  constructor
  · intro out f dz h hf hdz
    unfold get_battery_health
    rw [h]
    dsimp only
    rw [if_pos ⟨hf, ne_of_gt hdz, hdz⟩]
  · intro out st h hcond
    unfold get_battery_health
    rw [h]
    obtain ⟨fo, dzo⟩ := st
    cases fo with
    | none => rfl
    | some f =>
      cases dzo with
      | none => rfl
      | some dz =>
        dsimp only
        rw [if_neg ?_]
        intro hc
        rcases hcond f dz rfl with h0 | hle
        · exact hc.1 h0
        · exact absurd hc.2.2 (not_lt.mpr hle)

/-- C5 witness: full = 42.0 and design = 50.0 give str(round(84)) = "84". -/
theorem c5_battery_health_amended_witness :
    get_battery_health "energy-full: 42.0 Wh\nenergy-full-design: 50.0 Wh"
      = Except.ok (toString (pyRound ((42 : ℚ) / 50 * 100))) ∧
    toString (pyRound ((42 : ℚ) / 50 * 100)) = "84" :=
  ⟨c5_battery_health_amended.1 _ 42 50 rfl (by norm_num) (by norm_num),
   by rw [(by norm_num : ((42 : ℚ) / 50 * 100) = 84)]; decide⟩

/-! ### Claim C6 -/

/-- C6: when the process completes, `run` returns the captured standard output
trimmed of leading and trailing whitespace (the trimmed text is an infix of the
output between two all-whitespace pieces and neither starts nor ends in
whitespace); on any raised exception — execution error, framework failure,
timeout expiry — it returns the empty string; it is total, so it never raises
to its caller. -/
theorem c6_run_contract :
    (∀ (cmd : String) (timeout : ℤ) (stdout : String),
      run cmd timeout (ProbeOutcome.completed stdout) = pyStripS stdout ∧
      ∃ pre post : List Char,
        (∀ c ∈ pre, pySpace c = true) ∧
        (∀ c ∈ post, pySpace c = true) ∧
        stdout.data = pre ++ (pyStripS stdout).data ++ post ∧
        (∀ c ∈ (pyStripS stdout).data.head?, pySpace c = false) ∧
        (∀ c ∈ (pyStripS stdout).data.getLast?, pySpace c = false)) ∧
    (∀ (cmd : String) (timeout : ℤ), run cmd timeout ProbeOutcome.raised = "") := by
  constructor
  · intro cmd timeout stdout
    refine ⟨rfl, ?_⟩
    obtain ⟨pre, hpre, hl⟩ := dropWhile_decomp pySpace stdout.data
    obtain ⟨post1, hpost1, hd⟩ :=
      dropWhile_decomp pySpace (stdout.data.dropWhile pySpace).reverse
    have hstr : (pyStripS stdout).data =
        ((stdout.data.dropWhile pySpace).reverse.dropWhile pySpace).reverse := rfl
    have hdsplit : stdout.data.dropWhile pySpace =
        ((stdout.data.dropWhile pySpace).reverse.dropWhile pySpace).reverse ++ post1.reverse := by
      have := congrArg List.reverse hd
      rwa [List.reverse_reverse, List.reverse_append] at this
    refine ⟨pre, post1.reverse, hpre, ?_, ?_, ?_, ?_⟩
    · intro c hc
      exact hpost1 c (List.mem_reverse.mp hc)
    · rw [hstr, List.append_assoc, ← hdsplit, ← hl]
    · rw [hstr]
      intro c hc
      have hhead := head_dropWhile_false pySpace stdout.data
      cases hrev : ((stdout.data.dropWhile pySpace).reverse.dropWhile pySpace).reverse with
      | nil => rw [hrev] at hc; simp at hc
      | cons x rest =>
        rw [hrev] at hc
        simp at hc
        subst hc
        have hx : (stdout.data.dropWhile pySpace).head? = some x := by
          rw [hdsplit, hrev]
          rfl
        exact hhead x (by rw [Option.mem_def]; exact hx)
    · rw [hstr, List.getLast?_reverse]
      exact head_dropWhile_false pySpace (stdout.data.dropWhile pySpace).reverse
  · intro cmd timeout
    rfl

/-! ### Claim C7 -/

/-- C7: with an empty device identifier, `get_storage_info` returns the
sentinels ("N/A", 0, "N/A") whatever the probe outputs are — the result does
not depend on any further probe. -/
theorem c7_empty_disk_sentinels (sizeOut smartOut : String) :
    get_storage_info "" sizeOut smartOut = ("N/A", 0, "N/A") := by
  unfold get_storage_info
  rw [if_pos rfl]

/-! ### Claim C8 -/

/-- C8: `export_to_csv` writes the header row exactly when the file did not
exist at open time, always appends exactly one data row of the 18 fields in
header order; writing N ≥ 1 records to a fresh path yields one header line
plus the N rows, and appending M more to the existing file yields the single
header followed by the N+M rows. -/
theorem c8_ledger_header_and_rows :
    (∀ (ts : String) (d : ExportData),
      export_to_csv ts d none = [CSV_HEADERS, rowOf ts d]) ∧
    (∀ (ts : String) (d : ExportData) (f : List (List String)),
      export_to_csv ts d (some f) = f ++ [rowOf ts d]) ∧
    (∀ (ts : String) (d : ExportData), (rowOf ts d).length = CSV_HEADERS.length) ∧
    (∀ rs : List (String × ExportData), rs ≠ [] →
      exportAll rs none = CSV_HEADERS :: rs.map (fun p => rowOf p.1 p.2)) ∧
    (∀ (rs ms : List (String × ExportData)), rs ≠ [] →
      exportAll ms (some (exportAll rs none)) =
        CSV_HEADERS :: (rs ++ ms).map (fun p => rowOf p.1 p.2)) := by
  have hfresh : ∀ rs : List (String × ExportData), rs ≠ [] →
      exportAll rs none = CSV_HEADERS :: rs.map (fun p => rowOf p.1 p.2) := by
    intro rs hrs
    cases rs with
    | nil => exact absurd rfl hrs
    | cons r rest =>
      rw [exportAll, export_to_csv, exportAll_some]
      rfl
  refine ⟨fun ts d => rfl, fun ts d f => rfl, fun ts d => rfl, hfresh, ?_⟩
  intro rs ms hrs
  rw [hfresh rs hrs, exportAll_some, List.map_append]
  rfl

/-- C8 witness: one fresh record then one appended record give a single header
and two rows. -/
theorem c8_ledger_header_and_rows_witness :
    exportAll [("t2", ⟨none, none, none, none, none, none, none, none, none,
        none, none, none, none, none, none, none, none⟩)]
      (some (exportAll [("t1", ⟨none, none, none, none, none, none, none, none, none,
        none, none, none, none, none, none, none, none⟩)] none)) =
      CSV_HEADERS ::
        ([("t1", ⟨none, none, none, none, none, none, none, none, none,
            none, none, none, none, none, none, none, none⟩),
          ("t2", ⟨none, none, none, none, none, none, none, none, none,
            none, none, none, none, none, none, none, none⟩)].map
          (fun p => rowOf p.1 p.2)) :=
  c8_ledger_header_and_rows.2.2.2.2 _ _ (List.cons_ne_nil _ _)

/-! ### Claim C9 -/

/-- C9: `compute_recommendation` is total and always returns one of exactly four
labels; a battery string that fails integer parsing behaves exactly as "0";
missing keys behave as the defaults smart_status "N/A", empty grades,
gpu "None", cpu generation 0 and battery "0". -/
theorem c9_total_four_labels :
    (∀ d : RecInput,
      compute_recommendation d = "PARTS/REPAIR" ∨
      compute_recommendation d = "HIGH VALUE (Gaming/Creator)" ∨
      compute_recommendation d = "Standard Resale" ∨
      compute_recommendation d = "Bad Battery (Discount)") ∧
    (∀ (d : RecInput) (s : String), pyInt? s = none →
      compute_recommendation { d with battery_pct := some s } =
      compute_recommendation { d with battery_pct := some "0" }) ∧
    (compute_recommendation ⟨none, none, none, none, none, none⟩ =
      compute_recommendation ⟨some "N/A", some "", some "", some "None", some 0, some "0"⟩) := by
  refine ⟨?_, ?_, ?_⟩
  · intro d
    unfold compute_recommendation
    split_ifs <;> simp
  · intro d s hs
    have h0 : pyInt? "0" = some 0 := rfl
    obtain ⟨a, b, c, g, cg, bp⟩ := d
    unfold compute_recommendation recSmart recScreen recChassis recGpu recCpuGen recBatt
    simp [hs, h0]
  · rfl

/-- C9 witness: a non-numeric battery string such as "85%" classifies exactly
like "0". -/
theorem c9_total_four_labels_witness :
    compute_recommendation ⟨some "PASSED", some "A", some "A", some "None", some 9, some "85%"⟩ =
    compute_recommendation ⟨some "PASSED", some "A", some "A", some "None", some 9, some "0"⟩ :=
  c9_total_four_labels.2.1 ⟨some "PASSED", some "A", some "A", some "None", some 9, none⟩
    "85%" rfl

/-! ### Claim C10 -/

/-- C10: an Intel match whose captured digit run has length 2 or 3 produces no
generation in the Intel branch, so `parse_cpu_generation` falls through to the
Ryzen pattern (else 0); and the result is never negative. -/
theorem c10_short_intel_run_falls_through :
    (∀ (s : String) (run : List Char), intelSearch s.data = some run →
      run.length = 2 ∨ run.length = 3 →
      parse_cpu_generation s = ryzenOr0 s) ∧
    (∀ s : String, 0 ≤ parse_cpu_generation s) := by
  constructor
  · intro s run h hlen
    unfold parse_cpu_generation
    rw [h]
    rcases hlen with h2 | h3
    · simp [h2]
    · simp [h3]
  · intro s
    unfold parse_cpu_generation
    cases h : intelSearch s.data with
    | none => exact ryzenOr0_nonneg s
    | some run =>
      dsimp only
      split_ifs
      · simp
      · cases run with
        | nil => simp
        | cons a t =>
          cases t with
          | nil => simp
          | cons b t2 => positivity
      · exact ryzenOr0_nonneg s

/-- C10 witness: "i7-920" has a 3-digit run; the parser falls through and,
with no Ryzen pattern present, returns 0. -/
theorem c10_short_intel_run_falls_through_witness :
    parse_cpu_generation "i7-920" = ryzenOr0 "i7-920" ∧ parse_cpu_generation "i7-920" = 0 :=
  ⟨c10_short_intel_run_falls_through.1 "i7-920" ['9', '2', '0'] rfl (Or.inr rfl), rfl⟩
